import Mathlib

/-!
Shallow embedding of the habitica-ereader-frontend server (src/main.rs).

Time model: the host's local clock is modelled as an integer number of
seconds on a fixed local timeline whose origin, instant 0, is local
1970-01-01T00:00:00 (a Thursday).  `chrono::Local::now()` becomes an
explicit `now : Int` parameter.  Subtracting `Duration::hours(h)` is
subtraction of `h * 3600` seconds; the calendar weekday of an instant is
determined by its day number `t / 86400` (floor division, which Lean's
`Int` division provides for a positive divisor).

Rust `.unwrap()` on an `Err`/`None`, and explicit `panic!`, abort the
handler; they are modelled by the `RustOutcome.panicked` constructor,
kept distinct from a typed error value returned to the caller
(`RustOutcome.normal (Except.error e)`).
-/

namespace Habitica

/-- The seven weekdays, as in `chrono::Weekday`. -/
inductive Weekday where
  | sun | mon | tue | wed | thu | fri | sat
deriving DecidableEq, Repr

/-- Weekday of a weekday index in 0..6 with 0 = Sunday. -/
def weekdayOfIndex (i : Int) : Weekday :=
  if i = 0 then .sun
  else if i = 1 then .mon
  else if i = 2 then .tue
  else if i = 3 then .wed
  else if i = 4 then .thu
  else if i = 5 then .fri
  else .sat

/-- Calendar weekday, in the local time zone, of an instant given in
seconds on the local timeline.  Day 0 (local 1970-01-01) is a Thursday,
so day number `d` has weekday index `(d + 4) % 7` with 0 = Sunday. -/
def localWeekday (instant : Int) : Weekday :=
  weekdayOfIndex ((instant / 86400 + 4) % 7)

/-- `struct RepeatSchedule` of src/main.rs: seven weekday flags. -/
structure RepeatSchedule where
  su : Bool
  m : Bool
  t : Bool
  w : Bool
  th : Bool
  f : Bool
  s : Bool
deriving DecidableEq, Repr

/-- `struct Task` of src/main.rs.  The Rust field `repeat` is a Lean
keyword, hence the trailing underscore. -/
structure Task where
  _id : String
  text : String
  repeat_ : Option RepeatSchedule
  completed : Bool
deriving DecidableEq, Repr

/-- `fn task_due_today` of src/main.rs: subtract `day_start_hour` hours
from the current local time and read the repeat flag of the resulting
calendar weekday. -/
def task_due_today (repeat_schedule : RepeatSchedule) (day_start_hour : Int)
    (now : Int) : Bool :=
  match localWeekday (now - day_start_hour * 3600) with
  | .sun => repeat_schedule.su
  | .mon => repeat_schedule.m
  | .tue => repeat_schedule.t
  | .wed => repeat_schedule.w
  | .thu => repeat_schedule.th
  | .fri => repeat_schedule.f
  | .sat => repeat_schedule.s

/-- The spec's fixed weekday-to-flag mapping (Sunday→su, Monday→m,
Tuesday→t, Wednesday→w, Thursday→th, Friday→f, Saturday→s), stated from
the spec's words for comparison with `task_due_today`. -/
def scheduleFlag (sched : RepeatSchedule) : Weekday → Bool
  | .sun => sched.su
  | .mon => sched.m
  | .tue => sched.t
  | .wed => sched.w
  | .thu => sched.th
  | .fri => sched.f
  | .sat => sched.s

/-- The filter predicate of `get_due_tasks` in src/main.rs:
`task.repeat.map_or(true, |schedule| task_due_today(schedule, day_start_hour))`. -/
def due_filter (day_start_hour : Int) (now : Int) (task : Task) : Bool :=
  match task.repeat_ with
  | none => true
  | some schedule => task_due_today schedule day_start_hour now

/-- Outcome of running a piece of Rust code: either it completes
normally with a value, or it panics (`.unwrap()` on a failure, or an
explicit `panic!`), aborting the handler with a message. -/
inductive RustOutcome (α : Type) where
  | normal : α → RustOutcome α
  | panicked : String → RustOutcome α
deriving DecidableEq, Repr

/-- The typed error of the spec's error taxonomy: a remote call failed
or returned an unexpected shape/status. -/
inductive UpstreamError where
  | upstream : String → UpstreamError
deriving DecidableEq, Repr

/-- `struct TaskResponse` of src/main.rs. -/
structure TaskResponse where
  data : List Task
deriving Repr

/-- `struct Preferences` of src/main.rs (`dayStart` renamed field). -/
structure Preferences where
  day_start : Int
deriving Repr

/-- `struct User` of src/main.rs. -/
structure User where
  preferences : Preferences
deriving Repr

/-- `struct UserResponse` of src/main.rs. -/
structure UserResponse where
  data : User
deriving Repr

/-- `fn get_all_tasks` of src/main.rs.  The network send and the JSON
decode are inputs: `send_result = none` models a transport error from
`send()`, `json_result = none` models a body that fails to deserialize
as `TaskResponse` (which is what a non-success upstream status produces,
since the status itself is never inspected).  Both are `.unwrap()`ed. -/
def get_all_tasks (send_result : Option Unit)
    (json_result : Option TaskResponse) :
    RustOutcome (Except UpstreamError (List Task)) :=
  match send_result with
  | none => .panicked "called `Result::unwrap()` on an `Err` value"
  | some _ =>
    match json_result with
    | none => .panicked "called `Result::unwrap()` on an `Err` value"
    | some res => .normal (.ok res.data)

/-- `fn get_day_start_hour` of src/main.rs: returns a bare `i32`; both
the send and the JSON decode are `.unwrap()`ed. -/
def get_day_start_hour (send_result : Option Unit)
    (json_result : Option UserResponse) : RustOutcome Int :=
  match send_result with
  | none => .panicked "called `Result::unwrap()` on an `Err` value"
  | some _ =>
    match json_result with
    | none => .panicked "called `Result::unwrap()` on an `Err` value"
    | some res => .normal res.data.preferences.day_start

/-- `fn get_due_tasks` of src/main.rs: fetch all tasks (propagating a
typed error with `?`), then keep the tasks whose repeat schedule is
absent or due today. -/
def get_due_tasks (fetch : RustOutcome (Except UpstreamError (List Task)))
    (day_start_hour : Int) (now : Int) :
    RustOutcome (Except UpstreamError (List Task)) :=
  match fetch with
  | .panicked msg => .panicked msg
  | .normal (.error e) => .normal (.error e)
  | .normal (.ok all_tasks) =>
      .normal (.ok (all_tasks.filter (due_filter day_start_hour now)))

/-- `fn score_task` of src/main.rs: POST the score mutation, `.unwrap()`
the send, then return `Ok(status)` only when the status is 200 OK and
`panic!("Got Error code {status}")` otherwise.  `send_result` carries
the response's HTTP status code when the send succeeded. -/
def score_task (send_result : Option Nat) :
    RustOutcome (Except UpstreamError Nat) :=
  match send_result with
  | none => .panicked "called `Result::unwrap()` on an `Err` value"
  | some status =>
    if status = 200 then .normal (.ok status)
    else .panicked ("Got Error code " ++ toString status)

/-- A cookie jar, as the list of (name, value) pairs carried by the
request; `jar.get(name)` returns the value of the first cookie with the
given name. -/
def jar_get (jar : List (String × String)) (name : String) : Option String :=
  (jar.find? (fun c => c.1 = name)).map (fun c => c.2)

/-- Outcome of the `authorization` middleware: run the inner handler, or
redirect to `/login`. -/
inductive AuthOutcome where
  | grant : AuthOutcome
  | redirectLogin : AuthOutcome
deriving DecidableEq, Repr

/-- `fn authorization` of src/main.rs: admit when the request carries an
`authorization_token` cookie whose value equals the configured token,
otherwise redirect to `/login`. -/
def authorization (jar : List (String × String)) (authz_token : String) :
    AuthOutcome :=
  match jar_get jar "authorization_token" with
  | some v => if v = authz_token then .grant else .redirectLogin
  | none => .redirectLogin

/-- The configured process state (`struct AppState` of src/main.rs). -/
structure AppState where
  habitica_api_key : String
  habitica_user_id : String
  username : String
  password : String
  authz_token : String
deriving DecidableEq, Repr

/-- The cookie built by `login` on success:
`Cookie::build("authorization_token", token).path("/").secure(true).http_only(true).permanent()`. -/
structure BuiltCookie where
  name : String
  value : String
  path : String
  secure : Bool
  http_only : Bool
  permanent : Bool
deriving DecidableEq, Repr

/-- Response of the `login` handler: the cookie it adds to the jar (if
any) and the redirect target. -/
structure LoginResult where
  set_cookie : Option BuiltCookie
  redirect : String
deriving DecidableEq, Repr

/-- `fn login` of src/main.rs: if the request already carries an
`authorization_token` cookie matching the configured token, redirect to
`/` at once; otherwise compare the submitted form credentials with the
configured ones, redirecting to `/login` on mismatch and, on match,
adding the session cookie and redirecting to `/`. -/
def login (state : AppState) (jar : List (String × String))
    (form_username form_password : String) : LoginResult :=
  if jar_get jar "authorization_token" = some state.authz_token then
    { set_cookie := none, redirect := "/" }
  else if form_username ≠ state.username ∨ form_password ≠ state.password then
    { set_cookie := none, redirect := "/login" }
  else
    { set_cookie := some { name := "authorization_token",
                           value := state.authz_token,
                           path := "/",
                           secure := true,
                           http_only := true,
                           permanent := true },
      redirect := "/" }

/-- Unfolding lemma: `task_due_today` reads the flag of the weekday of
`now` shifted back by `day_start_hour` hours. -/
theorem task_due_today_eq_scheduleFlag (sched : RepeatSchedule)
    (day_start_hour now : Int) :
    task_due_today sched day_start_hour now
      = scheduleFlag sched (localWeekday (now - day_start_hour * 3600)) := by
  unfold task_due_today scheduleFlag
  cases localWeekday (now - day_start_hour * 3600) <;> rfl

/-- Local 2024-01-02T01:00, a Tuesday: day number 19724 since the local
epoch 1970-01-01 (a Thursday), plus one hour. -/
def rollbackInstant : Int := 19724 * 86400 + 3600

/-- The repeat schedule with only the Monday flag set. -/
def mondayOnly : RepeatSchedule :=
  { su := false, m := true, t := false, w := false,
    th := false, f := false, s := false }

/-- C1 (counterexample): with configured token `""` and a request whose
`authorization_token` cookie is present with the empty value, the code
admits; the claim's clause that an empty cookie value always redirects
to `/login` fails at this input. -/
theorem authorization_empty_counterexample :
    authorization [("authorization_token", "")] "" = AuthOutcome.grant ∧
    authorization [("authorization_token", "")] "" ≠ AuthOutcome.redirectLogin := by
  decide

/-- C1 (amended): `authorization` admits exactly when the request
carries an `authorization_token` cookie whose value equals the
configured token, and redirects to `/login` exactly otherwise (so an
absent cookie, or any mismatched value — in particular an empty value
when the configured token is nonempty — redirects). -/
theorem authorization_grant_iff (jar : List (String × String))
    (authz_token : String) :
    (authorization jar authz_token = AuthOutcome.grant ↔
      jar_get jar "authorization_token" = some authz_token) ∧
    (authorization jar authz_token = AuthOutcome.redirectLogin ↔
      jar_get jar "authorization_token" ≠ some authz_token) := by
  unfold authorization
  cases h : jar_get jar "authorization_token" with
  | none => simp
  | some v =>
    by_cases hv : v = authz_token <;> simp [hv]

/-- C2: with `dayStartHour = 0`, `task_due_today` returns exactly the
schedule flag of the current local weekday under the fixed mapping, and
the Monday-only schedule is due exactly on Monday instants. -/
theorem task_due_today_zero_offset (sched : RepeatSchedule) (now : Int) :
    task_due_today sched 0 now = scheduleFlag sched (localWeekday now) ∧
    (task_due_today mondayOnly 0 now = true ↔ localWeekday now = Weekday.mon) := by
  have h0 : now - 0 * 3600 = now := by ring
  constructor
  · rw [task_due_today_eq_scheduleFlag, h0]
  · rw [task_due_today_eq_scheduleFlag, h0]
    cases h : localWeekday now <;> simp [scheduleFlag, mondayOnly, h]

/-- C3: `task_due_today` always evaluates the weekday of the instant
shifted back by `dayStartHour` hours (for every integer `dayStartHour`,
negative or exceeding 24 included); at local 2024-01-02T01:00 — a
Tuesday — with `dayStartHour = 3` it reads the Monday flag of every
schedule, not the Tuesday flag. -/
theorem task_due_today_day_rollback :
    localWeekday rollbackInstant = Weekday.tue ∧
    (∀ sched : RepeatSchedule, task_due_today sched 3 rollbackInstant = sched.m) ∧
    (∀ (sched : RepeatSchedule) (day_start_hour now : Int),
      task_due_today sched day_start_hour now
        = scheduleFlag sched (localWeekday (now - day_start_hour * 3600))) := by
  refine ⟨by decide, fun sched => ?_, fun sched dsh now => task_due_today_eq_scheduleFlag ..⟩
  rw [task_due_today_eq_scheduleFlag]
  have h : localWeekday (rollbackInstant - 3 * 3600) = Weekday.mon := by decide
  rw [h]
  rfl

/-- C4: a task whose repeat schedule is absent passes the due filter for
every `now` and every `dayStartHour`, and therefore appears in the due
list whenever it is in the fetched list. -/
theorem unscheduled_always_due (day_start_hour now : Int) (task : Task)
    (h : task.repeat_ = none) :
    due_filter day_start_hour now task = true ∧
    ∀ tasks : List Task, task ∈ tasks →
      ∃ due, get_due_tasks (.normal (.ok tasks)) day_start_hour now
               = .normal (.ok due) ∧ task ∈ due := by
  have hdue : due_filter day_start_hour now task = true := by
    unfold due_filter
    rw [h]
  refine ⟨hdue, fun tasks ht => ⟨tasks.filter (due_filter day_start_hour now), rfl, ?_⟩⟩
  exact List.mem_filter.mpr ⟨ht, hdue⟩

/-- C4 (witness): a concrete schedule-absent task is due and appears in
the due list of a concrete fetch. -/
theorem unscheduled_always_due_witness :
    due_filter 5 0 { _id := "a", text := "b", repeat_ := none, completed := false } = true ∧
    ∀ tasks : List Task,
      { _id := "a", text := "b", repeat_ := none, completed := false } ∈ tasks →
      ∃ due, get_due_tasks (.normal (.ok tasks)) 5 0 = .normal (.ok due) ∧
        { _id := "a", text := "b", repeat_ := none, completed := false } ∈ due :=
  unscheduled_always_due 5 0
    { _id := "a", text := "b", repeat_ := none, completed := false } rfl

/-- C5: on a login request without an already-valid session cookie,
matching credentials produce the session cookie (value the configured
token, path `/`, secure, HTTP-only, permanent) and a redirect to `/`;
any mismatched credential produces no cookie and a redirect to
`/login`. -/
theorem login_credentials_check (state : AppState)
    (jar : List (String × String)) (u p : String)
    (hc : jar_get jar "authorization_token" ≠ some state.authz_token) :
    (u = state.username ∧ p = state.password →
      login state jar u p =
        { set_cookie := some { name := "authorization_token",
                               value := state.authz_token,
                               path := "/",
                               secure := true,
                               http_only := true,
                               permanent := true },
          redirect := "/" }) ∧
    (u ≠ state.username ∨ p ≠ state.password →
      login state jar u p = { set_cookie := none, redirect := "/login" }) := by
  constructor
  · rintro ⟨hu, hp⟩
    unfold login
    rw [if_neg hc, if_neg]
    simp [hu, hp]
  · intro hmm
    unfold login
    rw [if_neg hc, if_pos hmm]

/-- C5 (witness): concrete successful and failed logins without an
existing cookie. -/
theorem login_credentials_check_witness :
    login { habitica_api_key := "k", habitica_user_id := "i",
            username := "alice", password := "pw", authz_token := "tok" }
        [] "alice" "pw" =
      { set_cookie := some { name := "authorization_token", value := "tok",
                             path := "/", secure := true, http_only := true,
                             permanent := true },
        redirect := "/" } ∧
    login { habitica_api_key := "k", habitica_user_id := "i",
            username := "alice", password := "pw", authz_token := "tok" }
        [] "alice" "wrong" = { set_cookie := none, redirect := "/login" } :=
  ⟨(login_credentials_check _ [] "alice" "pw" (by simp [jar_get])).1 ⟨rfl, rfl⟩,
   (login_credentials_check _ [] "alice" "wrong" (by simp [jar_get])).2
     (Or.inr (by simp))⟩

/-- C6: a login request already carrying a cookie equal to the
configured token redirects to `/` with no cookie set, and the result is
independent of the submitted credentials. -/
theorem login_short_circuit (state : AppState)
    (jar : List (String × String)) (u p : String)
    (hc : jar_get jar "authorization_token" = some state.authz_token) :
    login state jar u p = { set_cookie := none, redirect := "/" } ∧
    ∀ u' p', login state jar u p = login state jar u' p' := by
  have h : ∀ a b : String,
      login state jar a b = { set_cookie := none, redirect := "/" } := by
    intro a b
    unfold login
    rw [if_pos hc]
  exact ⟨h u p, fun u' p' => (h u p).trans (h u' p').symm⟩

/-- C6 (witness): a concrete already-authenticated login request
short-circuits regardless of credentials. -/
theorem login_short_circuit_witness :
    login { habitica_api_key := "k", habitica_user_id := "i",
            username := "alice", password := "pw", authz_token := "tok" }
        [("authorization_token", "tok")] "bob" "nope" =
      { set_cookie := none, redirect := "/" } :=
  (login_short_circuit _ [("authorization_token", "tok")] "bob" "nope"
    (by simp [jar_get])).1

/-- C7: on a successful fetch, `get_due_tasks` is exactly the filter of
the fetched list through the due predicate, the result is a sublist of
the fetched list (order preserved, no re-sorting), and membership in the
due list is membership in the fetched list plus the due predicate. -/
theorem get_due_tasks_filter_order (tasks : List Task)
    (day_start_hour now : Int) :
    get_due_tasks (.normal (.ok tasks)) day_start_hour now
      = .normal (.ok (tasks.filter (due_filter day_start_hour now))) ∧
    List.Sublist (tasks.filter (due_filter day_start_hour now)) tasks ∧
    ∀ task : Task,
      task ∈ tasks.filter (due_filter day_start_hour now) ↔
        task ∈ tasks ∧ due_filter day_start_hour now task = true :=
  ⟨rfl, List.filter_sublist tasks, fun _ => List.mem_filter⟩

/-- C8: on a non-success upstream status `score_task` panics (aborting
the handler) instead of returning a typed `UpstreamError`; it never
returns a typed error on any input, and never reports success for a
non-200 status. -/
theorem score_task_panics_on_error_status :
    score_task (some 500) = .panicked "Got Error code 500" ∧
    (∀ (send_result : Option Nat) (e : UpstreamError),
      score_task send_result ≠ .normal (.error e)) ∧
    (∀ status : Nat, status ≠ 200 →
      ∀ v : Nat, score_task (some status) ≠ .normal (.ok v)) := by
  refine ⟨rfl, fun sr e => ?_, fun status hs v => ?_⟩
  · cases sr with
    | none => simp [score_task]
    | some status => by_cases h : status = 200 <;> simp [score_task, h]
  · simp [score_task, hs]

/-- C8 (witness): concrete non-success status 500 neither yields a typed
error nor reports success. -/
theorem score_task_panics_witness :
    score_task (some 500) = .panicked "Got Error code 500" ∧
    score_task (some 500) ≠ .normal (.error (.upstream "boom")) ∧
    score_task (some 500) ≠ .normal (.ok 500) :=
  ⟨score_task_panics_on_error_status.1,
   score_task_panics_on_error_status.2.1 (some 500) (.upstream "boom"),
   score_task_panics_on_error_status.2.2 500 (by decide) 500⟩

/-- C9: on a response body that fails to deserialize (which is also what
a non-success upstream status produces, the status never being
inspected), `get_all_tasks` and `get_day_start_hour` panic instead of
returning a typed `UpstreamError`; `get_all_tasks` never returns a typed
error on any input. -/
theorem fetchers_panic_on_malformed :
    get_all_tasks (some ()) none
      = .panicked "called `Result::unwrap()` on an `Err` value" ∧
    get_day_start_hour (some ()) none
      = .panicked "called `Result::unwrap()` on an `Err` value" ∧
    ∀ (send_result : Option Unit) (json_result : Option TaskResponse)
      (e : UpstreamError),
      get_all_tasks send_result json_result ≠ .normal (.error e) := by
  refine ⟨rfl, rfl, fun sr jr e => ?_⟩
  cases sr with
  | none => simp [get_all_tasks]
  | some u => cases jr <;> simp [get_all_tasks]

/-- C9 (witness): the panic outcomes at the concrete malformed-body
input differ from every typed-error outcome shape. -/
theorem fetchers_panic_witness :
    get_all_tasks (some ()) none
      = .panicked "called `Result::unwrap()` on an `Err` value" ∧
    get_all_tasks (some ()) none ≠ .normal (.error (.upstream "boom")) :=
  ⟨fetchers_panic_on_malformed.1,
   fetchers_panic_on_malformed.2.2 (some ()) none (.upstream "boom")⟩

/-- C10: the due filter ignores the `completed` flag — flipping it
changes neither the filter's verdict nor membership in the due list,
which is determined by list membership and the repeat schedule alone. -/
theorem due_filter_ignores_completed (day_start_hour now : Int)
    (task : Task) (b : Bool) :
    due_filter day_start_hour now { task with completed := b }
      = due_filter day_start_hour now task ∧
    ∀ tasks : List Task,
      { task with completed := b } ∈ tasks.filter (due_filter day_start_hour now) ↔
        { task with completed := b } ∈ tasks ∧
          due_filter day_start_hour now task = true := by
  have h : due_filter day_start_hour now { task with completed := b }
      = due_filter day_start_hour now task := rfl
  exact ⟨h, fun tasks => by rw [List.mem_filter, h]⟩

end Habitica
